import Mathlib

/-!
Verification of the exam-session and scoring engine of the OmniStudio exam
simulator (src/exam_engine.py, src/models.py), as a shallow embedding.

Modelling conventions:
* Python strings are `String`; topics (a `str` enum) are their string values.
* Timestamps are rationals (seconds); `datetime.now()` becomes an explicit
  `now : ℚ` parameter to the operations that read the clock.
* Python floats are modelled as `ℚ`; `round(x, 1)` is modelled as rounding
  `10*x` to the nearest integer over `ℚ` (exact .05 ties are not exactly
  representable as binary floats, so all claims are settled away from ties).
* Python sets of strings are `Finset String`; `set(xs)` is `xs.toFinset`.
* The dict `active_sessions` is an association list (insertion-ordered, as
  Python dicts are); lookup takes the first matching key.
* `random.sample` and `random.shuffle` are passed in as explicit functions;
  theorems about the randomized branches assume only the documented
  contract of `random.sample` (a without-replacement draw).
-/

/-- Rounding of a rational to one decimal place, modelling Python round(x, 1). -/
def round1 (x : ℚ) : ℚ := (round (10 * x) : ℤ) / 10

/-- Truncation of a rational toward zero, modelling Python int(x) on a float. -/
def intTrunc (x : ℚ) : ℤ := if 0 ≤ x then ⌊x⌋ else -⌊-x⌋

/-- Truthiness of an Optional int in Python: None and 0 are falsy. -/
def pyTruthyOptInt (o : Option Int) : Bool :=
  match o with
  | none => false
  | some d => d != 0

/-- Python list slicing l[:n] for an arbitrary (possibly negative) n. -/
def pySlice {α : Type} (l : List α) (n : Int) : List α :=
  if 0 ≤ n then l.take n.toNat else l.take ((l.length : Int) + n).toNat

/-- models.Answer: an individual answer option. -/
structure Answer where
  id : String
  text : String
deriving DecidableEq

/-- models.Question: an exam question. -/
structure Question where
  id : String
  topic : String
  question_text : String
  answers : List Answer
  correct_answers : List String
  question_type : String
  explanation : Option String
  difficulty : Option String
deriving DecidableEq

/-- models.UserAnswer: a user's answer to a question. -/
structure UserAnswer where
  question_id : String
  selected_answers : List String
  time_spent_seconds : Option Int
  bookmarked : Bool
deriving DecidableEq

/-- models.ExamSession: an active exam session. -/
structure ExamSession where
  session_id : String
  mode : String
  questions : List Question
  start_time : ℚ
  duration_minutes : Option Int
  current_question_index : Int
  user_answers : List UserAnswer
deriving DecidableEq

/-- models.TopicPerformance: performance breakdown by topic. -/
structure TopicPerformance where
  topic : String
  total_questions : Nat
  correct_answers : Nat
  percentage : ℚ
  is_weak_area : Bool
deriving DecidableEq

/-- One entry of ExamResult.question_details (a dict in the source); the
user's selected ids and the correct ids are Python sets there, hence
finsets here. -/
structure QuestionDetail where
  question_id : String
  question_text : String
  topic : String
  user_answers : Finset String
  correct_answers : Finset String
  is_correct : Bool
  explanation : Option String
  bookmarked : Bool
deriving DecidableEq

/-- models.ExamResult: exam results and analytics. -/
structure ExamResult where
  session_id : String
  exam_mode : String
  total_questions : Nat
  correct_answers : Nat
  score_percentage : ℚ
  passed : Bool
  time_taken_minutes : Option Int
  completion_date : ℚ
  topic_performance : List TopicPerformance
  weak_areas : List String
  question_details : List QuestionDetail
deriving DecidableEq

/-- models.ExamConfig: system configuration, with the source's defaults. -/
structure ExamConfig where
  exam_duration_minutes : Int := 90
  passing_score_percentage : ℚ := 70
  questions_per_exam : Nat := 60
  allow_review : Bool := true
  randomize_questions : Bool := true
  randomize_answers : Bool := true
  show_explanations_in_study_mode : Bool := true
  weak_area_threshold_percentage : ℚ := 65
deriving DecidableEq

/-- models.Exam: an available exam (questions_file is handled by the I/O
layer; the loaded pool is passed to create_exam_session explicitly). -/
structure Exam where
  id : String
  name : String
  description : String
  duration_minutes : Int
  passing_score : ℚ
  total_questions : Int
  topics : Option (List String)
deriving DecidableEq

/-- The in-memory state of ExamEngine that the claims concern: the loaded
configuration and the active_sessions dict (insertion-ordered assoc list). -/
structure EngineState where
  config : ExamConfig
  active_sessions : List (String × ExamSession)
deriving DecidableEq

/-- Dict lookup active_sessions.get(session_id). -/
def lookupSession (st : EngineState) (sid : String) : Option ExamSession :=
  (st.active_sessions.find? (fun p => p.1 == sid)).map (fun p => p.2)

/-- In-place mutation of the session stored under sid (Python mutates the
session object held in the dict; the dict's keys and order are unchanged). -/
def updateSession (st : EngineState) (sid : String) (f : ExamSession → ExamSession) :
    EngineState :=
  { st with active_sessions :=
      st.active_sessions.map (fun p => if p.1 == sid then (p.1, f p.2) else p) }

/-- The session-level effect of ExamEngine.submit_answer: remove any existing
answer for this question, then append the new one. -/
def submitAnswerSession (s : ExamSession) (question_id : String)
    (selected_answers : List String) (bookmarked : Bool) : ExamSession :=
  { s with user_answers :=
      (s.user_answers.filter (fun a => a.question_id != question_id)) ++
        [{ question_id := question_id, selected_answers := selected_answers,
           time_spent_seconds := none, bookmarked := bookmarked }] }

/-- ExamEngine.submit_answer: returns the new engine state and the success flag. -/
def submit_answer (st : EngineState) (session_id question_id : String)
    (selected_answers : List String) (bookmarked : Bool) : EngineState × Bool :=
  match lookupSession st session_id with
  | none => (st, false)
  | some _ =>
      (updateSession st session_id
        (fun s => submitAnswerSession s question_id selected_answers bookmarked), true)

/-- ExamEngine.navigate_to_question. -/
def navigate_to_question (st : EngineState) (session_id : String) (index : Int) :
    EngineState × Bool :=
  match lookupSession st session_id with
  | none => (st, false)
  | some s =>
      if 0 ≤ index ∧ index < (s.questions.length : Int) then
        (updateSession st session_id (fun s => { s with current_question_index := index }),
         true)
      else (st, false)

/-- ExamEngine.get_user_answer restricted to one session: the first stored
answer whose question_id matches. -/
def getUserAnswerSession (s : ExamSession) (question_id : String) : Option UserAnswer :=
  s.user_answers.find? (fun a => a.question_id == question_id)

/-- ExamEngine.get_user_answer. -/
def get_user_answer (st : EngineState) (session_id question_id : String) :
    Option UserAnswer :=
  match lookupSession st session_id with
  | none => none
  | some s => getUserAnswerSession s question_id

/-- ExamEngine.is_session_expired at query time now; the guard
`not session.duration_minutes` is falsy for both None and 0. -/
def is_session_expired (st : EngineState) (session_id : String) (now : ℚ) : Bool :=
  match lookupSession st session_id with
  | none => false
  | some s =>
      if pyTruthyOptInt s.duration_minutes then
        match s.duration_minutes with
        | none => false
        | some d => decide (now - s.start_time > (d : ℚ) * 60)
      else false

/-- ExamEngine.get_remaining_time at query time now. -/
def get_remaining_time (st : EngineState) (session_id : String) (now : ℚ) :
    Option Int :=
  match lookupSession st session_id with
  | none => none
  | some s =>
      if pyTruthyOptInt s.duration_minutes then
        match s.duration_minutes with
        | none => none
        | some d => some (max 0 (intTrunc ((d : ℚ) * 60 - (now - s.start_time))))
      else none

/-- Accumulator of the scoring loop in ExamEngine.calculate_score:
running correct count, the topic_stats dict as an insertion-ordered assoc
list of (topic, total, correct), and the question_details list. -/
structure ScoreAcc where
  correct_count : Nat
  topic_stats : List (String × Nat × Nat)
  question_details : List QuestionDetail
deriving DecidableEq

/-- One update of the topic_stats dict: create the entry on first encounter
of a topic, then increment total (and correct when the answer is correct). -/
def bumpStat (stats : List (String × Nat × Nat)) (topic : String)
    (is_correct : Bool) : List (String × Nat × Nat) :=
  if stats.any (fun p => p.1 == topic) then
    stats.map (fun p =>
      if p.1 == topic then (p.1, p.2.1 + 1, p.2.2 + (if is_correct then 1 else 0))
      else p)
  else stats ++ [(topic, 1, if is_correct then 1 else 0)]

/-- The user's selection for a question id, as a set: the selected ids of
its UserAnswer when one exists, the empty set otherwise (source line 271). -/
def selectedSet (s : ExamSession) (question_id : String) : Finset String :=
  (match getUserAnswerSession s question_id with
    | some a => a.selected_answers
    | none => []).toFinset

/-- Correctness of one question (source line 275): set equality of the
user's selection and the question's correct-answer ids. -/
def isCorrectFor (s : ExamSession) (q : Question) : Bool :=
  decide (selectedSet s q.id = q.correct_answers.toFinset)

/-- The per-question detail record appended by the scoring loop
(source lines 288-297). -/
def mkDetail (s : ExamSession) (q : Question) : QuestionDetail :=
  { question_id := q.id, question_text := q.question_text, topic := q.topic,
    user_answers := selectedSet s q.id,
    correct_answers := q.correct_answers.toFinset,
    is_correct := isCorrectFor s q, explanation := q.explanation,
    bookmarked := match getUserAnswerSession s q.id with
      | some a => a.bookmarked
      | none => false }

/-- One iteration of the scoring loop (source lines 268-297): look up the
user's answer, compare selected and correct as sets, update the counters
and append the detail record. -/
def scoreStep (s : ExamSession) (acc : ScoreAcc) (q : Question) : ScoreAcc :=
  { correct_count := acc.correct_count + (if isCorrectFor s q then 1 else 0),
    topic_stats := bumpStat acc.topic_stats q.topic (isCorrectFor s q),
    question_details := acc.question_details ++ [mkDetail s q] }

/-- The scoring loop over the session's questions, in session order. -/
def sessionStats (s : ExamSession) : ScoreAcc :=
  s.questions.foldl (scoreStep s) ⟨0, [], []⟩

/-- One TopicPerformance record (source lines 307-317): the weak flag uses
the unrounded percentage, the stored percentage is rounded. -/
def mkPerf (config : ExamConfig) (p : String × Nat × Nat) : TopicPerformance :=
  let percentage : ℚ := if p.2.1 > 0 then (p.2.2 : ℚ) / (p.2.1 : ℚ) * 100 else 0
  { topic := p.1, total_questions := p.2.1, correct_answers := p.2.2,
    percentage := round1 percentage,
    is_weak_area := decide (percentage < config.weak_area_threshold_percentage) }

/-- topic_performance in topic-encounter order, before the final sort. -/
def unsortedPerf (config : ExamConfig) (s : ExamSession) : List TopicPerformance :=
  (sessionStats s).topic_stats.map (mkPerf config)

/-- The sort key of topic_performance.sort (source line 323). -/
def perfLE (a b : TopicPerformance) : Bool := decide (a.percentage ≤ b.percentage)

/-- The unrounded overall percentage (source line 300): correct / total × 100,
or 0 for an empty session. -/
def rawScorePercentage (s : ExamSession) : ℚ :=
  if s.questions.length > 0
  then ((sessionStats s).correct_count : ℚ) / (s.questions.length : ℚ) * 100
  else 0

/-- The ExamResult built by ExamEngine.calculate_score for a found session
(source lines 262-341); Python's list.sort is stable, modelled by mergeSort.
Note the pass check (source line 301) uses the unrounded percentage while
the stored score_percentage is rounded (source line 334). -/
def scoreSession (config : ExamConfig) (session_id : String) (s : ExamSession)
    (now : ℚ) : ExamResult :=
  let acc := sessionStats s
  let total_questions := s.questions.length
  let score_percentage : ℚ := rawScorePercentage s
  let passed := decide (score_percentage ≥ config.passing_score_percentage)
  let perf := unsortedPerf config s
  let weak_areas := (perf.filter (fun t => t.is_weak_area)).map (fun t => t.topic)
  let topic_performance := perf.mergeSort perfLE
  let time_taken : ℚ := (now - s.start_time) / 60
  { session_id := session_id, exam_mode := s.mode,
    total_questions := total_questions, correct_answers := acc.correct_count,
    score_percentage := round1 score_percentage, passed := passed,
    time_taken_minutes := some (intTrunc time_taken), completion_date := now,
    topic_performance := topic_performance, weak_areas := weak_areas,
    question_details := acc.question_details }

/-- ExamEngine.calculate_score: reads the session, builds the result and
hands it to the persistence collaborator (_save_result writes a file and is
outside the state); the engine state itself is returned unchanged. -/
def calculate_score (st : EngineState) (session_id : String) (now : ℚ) :
    EngineState × Option ExamResult :=
  match lookupSession st session_id with
  | none => (st, none)
  | some s => (st, some (scoreSession st.config session_id s now))

/-- The topic filter of create_exam_session (source lines 118-122); Python
`if topics:` treats both None and an empty list as no filter. -/
def filteredPool (available_questions : List Question)
    (topics : Option (List String)) : List Question :=
  match topics with
  | some ts =>
      if ts.isEmpty then available_questions
      else available_questions.filter (fun q => decide (q.topic ∈ ts))
  | none => available_questions

/-- The requested question count before clamping (source line 125):
`question_count or exam.total_questions`, where a passed 0 is falsy and
falls back to the exam's configured total. -/
def pyTarget (exam : Exam) (question_count : Option Int) : Int :=
  match question_count with
  | some n => if n != 0 then n else exam.total_questions
  | none => exam.total_questions

/-- ExamEngine.create_exam_session, with the I/O and randomness boundaries
explicit: the resolved exam, its loaded question pool, the fresh session id,
the clock, the random.sample draw and the per-question answer shuffle are
parameters. random.sample raises ValueError on a negative count. -/
def create_exam_session (config : ExamConfig) (exam : Exam)
    (available_questions : List Question) (mode : String)
    (topics : Option (List String)) (question_count : Option Int)
    (session_id : String) (now : ℚ)
    (sample : List Question → Nat → List Question)
    (shuffle : Question → List Answer) : Except String ExamSession :=
  if available_questions.isEmpty then
    Except.error "No questions found for exam"
  else
    let avail := filteredPool available_questions topics
    let num : Int := min (pyTarget exam question_count) (avail.length : Int)
    if config.randomize_questions ∧ num < 0 then
      Except.error "Sample larger than population or is negative"
    else
      let selected := if config.randomize_questions then sample avail num.toNat
        else pySlice avail num
      let selected := if config.randomize_answers then
          selected.map (fun q => { q with answers := shuffle q })
        else selected
      Except.ok
        { session_id := session_id, mode := mode, questions := selected,
          start_time := now,
          duration_minutes := if mode == "exam" then some exam.duration_minutes else none,
          current_question_index := 0, user_answers := [] }

/-! ## Structural lemmas about the embedded operations -/

theorem find?_map_updateEntry (l : List (String × ExamSession)) (sid : String)
    (f : ExamSession → ExamSession) :
    ((l.map (fun p => if p.1 == sid then (p.1, f p.2) else p)).find?
        (fun p => p.1 == sid)).map (fun p => p.2)
      = ((l.find? (fun p => p.1 == sid)).map (fun p => p.2)).map f := by
  induction l with
  | nil => rfl
  | cons p l ih =>
      by_cases h : (p.1 == sid) = true
      · rw [List.map_cons, if_pos h]
        simp only [h, List.find?_cons_of_pos]
        rfl
      · rw [List.map_cons, if_neg h]
        simp only [h, List.find?_cons_of_neg, Bool.not_eq_true, not_false_iff]
        exact ih

/-- Mutating the session stored under a key changes exactly what a
subsequent lookup of that key returns. -/
theorem lookupSession_updateSession (st : EngineState) (sid : String)
    (f : ExamSession → ExamSession) :
    lookupSession (updateSession st sid f) sid = (lookupSession st sid).map f := by
  simpa [lookupSession, updateSession] using
    find?_map_updateEntry st.active_sessions sid f

theorem sessionStats_details (s : ExamSession) :
    (sessionStats s).question_details = s.questions.map (mkDetail s) := by
  have h : ∀ (qs : List Question) (acc : ScoreAcc),
      (qs.foldl (scoreStep s) acc).question_details
        = acc.question_details ++ qs.map (mkDetail s) := by
    intro qs
    induction qs with
    | nil => intro acc; simp
    | cons q qs ih =>
        intro acc
        rw [List.foldl_cons, ih]
        simp [scoreStep]
  simpa using h s.questions ⟨0, [], []⟩

/-- The order in which topics first appear while iterating a question list:
the key order of the topic_stats dict. -/
def encounterTopics (qs : List Question) : List String :=
  qs.foldl (fun ks q => if q.topic ∈ ks then ks else ks ++ [q.topic]) []

theorem bumpStat_keys (stats : List (String × Nat × Nat)) (topic : String)
    (c : Bool) :
    (bumpStat stats topic c).map (fun p => p.1)
      = if topic ∈ stats.map (fun p => p.1) then stats.map (fun p => p.1)
        else stats.map (fun p => p.1) ++ [topic] := by
  unfold bumpStat
  by_cases h : (stats.any (fun p => p.1 == topic)) = true
  · have hm : topic ∈ stats.map (fun p => p.1) := by
      simp only [List.any_eq_true, beq_iff_eq] at h
      obtain ⟨p, hp, he⟩ := h
      exact List.mem_map.mpr ⟨p, hp, he⟩
    rw [if_pos h, if_pos hm, List.map_map]
    apply List.map_congr_left
    intro p _
    by_cases hp : (p.1 == topic) = true <;> simp [Function.comp, hp]
  · have hm : topic ∉ stats.map (fun p => p.1) := by
      simp only [List.any_eq_true, beq_iff_eq] at h
      intro hc
      obtain ⟨p, hp, he⟩ := List.mem_map.mp hc
      exact h ⟨p, hp, he⟩
    rw [if_neg h, if_neg hm]
    simp

theorem sessionStats_keys (s : ExamSession) :
    (sessionStats s).topic_stats.map (fun p => p.1) = encounterTopics s.questions := by
  have h : ∀ (qs : List Question) (acc : ScoreAcc),
      (qs.foldl (scoreStep s) acc).topic_stats.map (fun p => p.1)
        = qs.foldl (fun ks q => if q.topic ∈ ks then ks else ks ++ [q.topic])
            (acc.topic_stats.map (fun p => p.1)) := by
    intro qs
    induction qs with
    | nil => intro acc; rfl
    | cons q qs ih =>
        intro acc
        simp only [List.foldl_cons]
        rw [ih]
        simp [scoreStep, bumpStat_keys]
  simpa [sessionStats, encounterTopics] using h s.questions ⟨0, [], []⟩

theorem unsortedPerf_topics (config : ExamConfig) (s : ExamSession) :
    (unsortedPerf config s).map (fun t => t.topic) = encounterTopics s.questions := by
  rw [← sessionStats_keys s]
  simp only [unsortedPerf, List.map_map]
  apply List.map_congr_left
  intro p _
  rfl

theorem scoreSession_topic_performance (config : ExamConfig) (sid : String)
    (s : ExamSession) (now : ℚ) :
    (scoreSession config sid s now).topic_performance
      = (unsortedPerf config s).mergeSort perfLE := rfl

theorem scoreSession_weak_areas (config : ExamConfig) (sid : String)
    (s : ExamSession) (now : ℚ) :
    (scoreSession config sid s now).weak_areas
      = ((unsortedPerf config s).filter (fun t => t.is_weak_area)).map
          (fun t => t.topic) := rfl

theorem perfLE_trans (a b c : TopicPerformance) :
    perfLE a b → perfLE b c → perfLE a c := by
  simp only [perfLE, decide_eq_true_eq]
  exact le_trans

theorem perfLE_total (a b : TopicPerformance) : perfLE a b || perfLE b a := by
  simp only [perfLE, Bool.or_eq_true, decide_eq_true_eq]
  exact le_total a.percentage b.percentage

theorem submitAnswerSession_filter (s : ExamSession) (qid : String)
    (sel : List String) (bm : Bool) :
    (submitAnswerSession s qid sel bm).user_answers.filter
        (fun a => a.question_id == qid)
      = [{ question_id := qid, selected_answers := sel,
           time_spent_seconds := none, bookmarked := bm }] := by
  have h1 : ∀ a : UserAnswer,
      ((a.question_id == qid) && (a.question_id != qid)) = false := by
    intro a
    simp [bne, Bool.and_not_self]
  simp [submitAnswerSession, List.filter_append, List.filter_filter, h1]

theorem submitAnswerSession_idem (s : ExamSession) (qid : String)
    (sel : List String) (bm : Bool) :
    submitAnswerSession (submitAnswerSession s qid sel bm) qid sel bm
      = submitAnswerSession s qid sel bm := by
  have h1 : ∀ a : UserAnswer,
      ((a.question_id != qid) && (a.question_id != qid)) = (a.question_id != qid) :=
    fun a => Bool.and_self _
  simp [submitAnswerSession, List.filter_append, List.filter_filter, h1]

theorem getUserAnswerSession_submit (s : ExamSession) (qid : String)
    (sel : List String) (bm : Bool) :
    getUserAnswerSession (submitAnswerSession s qid sel bm) qid
      = some { question_id := qid, selected_answers := sel,
               time_spent_seconds := none, bookmarked := bm } := by
  have h1 : (s.user_answers.filter (fun a => a.question_id != qid)).find?
      (fun a => a.question_id == qid) = none := by
    rw [List.find?_eq_none]
    intro a ha
    have := List.of_mem_filter ha
    simp only [bne_iff_ne, ne_eq] at this
    simp [this]
  simp [getUserAnswerSession, submitAnswerSession, List.find?_append, h1]

theorem updateSession_updateSession (st : EngineState) (sid : String)
    (f g : ExamSession → ExamSession) :
    updateSession (updateSession st sid g) sid f
      = updateSession st sid (fun s => f (g s)) := by
  simp only [updateSession, List.map_map]
  congr 1
  apply List.map_congr_left
  intro p _
  by_cases h : (p.1 == sid) = true <;> simp [Function.comp, h]

theorem subperm_map {α β : Type} (f : α → β) {l₁ l₂ : List α} (h : l₁.Subperm l₂) :
    (l₁.map f).Subperm (l₂.map f) := by
  obtain ⟨l, hp, hs⟩ := h
  exact ⟨l.map f, hp.map f, hs.map f⟩

theorem subperm_nodup {α : Type} {l₁ l₂ : List α} (h : l₁.Subperm l₂)
    (hd : l₂.Nodup) : l₁.Nodup := by
  obtain ⟨l, hp, hs⟩ := h
  exact hp.nodup_iff.mp (hs.nodup hd)

/-! ## Concrete fixtures used by witnesses and counterexamples -/

/-- A two-option single-choice question with correct answer "A". -/
def exQuestion (i topic : String) : Question :=
  { id := i, topic := topic, question_text := "example",
    answers := [{ id := "A", text := "a" }, { id := "B", text := "b" }],
    correct_answers := ["A"], question_type := "single_choice",
    explanation := none, difficulty := some "medium" }

/-- A one-question timed session with no answers submitted yet. -/
def exSession : ExamSession :=
  { session_id := "s1", mode := "exam", questions := [exQuestion "q1" "DataRaptors"],
    start_time := 0, duration_minutes := some 90, current_question_index := 0,
    user_answers := [] }

/-- An untimed session, as created in study mode. -/
def exStudySession : ExamSession :=
  { session_id := "study", mode := "study",
    questions := [exQuestion "q1" "DataRaptors"],
    start_time := 0, duration_minutes := none, current_question_index := 0,
    user_answers := [] }

/-- A session whose duration_minutes is the integer 0 rather than None. -/
def exZeroSession : ExamSession :=
  { session_id := "zero", mode := "exam",
    questions := [exQuestion "q1" "DataRaptors"],
    start_time := 0, duration_minutes := some 0, current_question_index := 0,
    user_answers := [] }

/-- An engine state holding the three fixture sessions under their ids. -/
def exState : EngineState :=
  { config := {},
    active_sessions :=
      [("s1", exSession), ("study", exStudySession), ("zero", exZeroSession)] }

/-- Two topics: TopicA (encountered first, 1 of 2 correct, 50%) and TopicB
(encountered second, 0 of 1 correct, 0%); both below the 65% weak threshold. -/
def exMixSession : ExamSession :=
  { session_id := "mix", mode := "exam",
    questions := [exQuestion "q1" "TopicA", exQuestion "q2" "TopicA",
      exQuestion "q3" "TopicB"],
    start_time := 0, duration_minutes := some 90, current_question_index := 0,
    user_answers := [⟨"q1", ["A"], none, false⟩, ⟨"q2", ["B"], none, false⟩] }

/-- Three questions in one topic with exactly 2 answered correctly:
raw score 66.66...%, rounded score 66.7%. -/
def exThirdsSession : ExamSession :=
  { session_id := "thirds", mode := "exam",
    questions := [exQuestion "q1" "T", exQuestion "q2" "T", exQuestion "q3" "T"],
    start_time := 0, duration_minutes := some 90, current_question_index := 0,
    user_answers := [⟨"q1", ["A"], none, false⟩, ⟨"q2", ["A"], none, false⟩] }

/-- A configuration whose passing threshold 66.7 sits between the raw and
the rounded overall percentage of exThirdsSession. -/
def exPassConfig : ExamConfig := { passing_score_percentage := 667/10 }

/-- Two topics answered fully correctly: a 100% tie between TopicA and
TopicB, in that encounter order. -/
def exTieSession : ExamSession :=
  { session_id := "tie", mode := "exam",
    questions := [exQuestion "q1" "TopicA", exQuestion "q2" "TopicB"],
    start_time := 0, duration_minutes := some 90, current_question_index := 0,
    user_answers := [⟨"q1", ["A"], none, false⟩, ⟨"q2", ["A"], none, false⟩] }

/-- The TopicPerformance entry of TopicA in exTieSession. -/
def exPerfA : TopicPerformance :=
  { topic := "TopicA", total_questions := 1, correct_answers := 1,
    percentage := 100, is_weak_area := false }

/-- The TopicPerformance entry of TopicB in exTieSession. -/
def exPerfB : TopicPerformance :=
  { topic := "TopicB", total_questions := 1, correct_answers := 1,
    percentage := 100, is_weak_area := false }

/-- An exam configured for 2 questions. -/
def exExam : Exam :=
  { id := "e1", name := "exam one", description := "fixture exam",
    duration_minutes := 90, passing_score := 70, total_questions := 2,
    topics := none }

/-- A configuration with both randomization flags off (deterministic
selection and answer order). -/
def exNoRandomConfig : ExamConfig :=
  { randomize_questions := false, randomize_answers := false }

/-- A three-question candidate pool. -/
def exPool : List Question :=
  [exQuestion "q1" "TopicA", exQuestion "q2" "TopicA", exQuestion "q3" "TopicB"]

/-! ## Claims -/

/-- C1: for every session and every question, calculate_score marks the
question correct exactly when the set of selected option ids of the
question's UserAnswer (the empty set when no UserAnswer exists for that id)
equals the question's correct_answers set; in particular a question with no
UserAnswer is always scored incorrect when the question has at least one
correct answer. -/
theorem score_marks_correct_iff_set_equal (config : ExamConfig) (sid : String)
    (s : ExamSession) (now : ℚ) :
    (scoreSession config sid s now).question_details = s.questions.map (mkDetail s) ∧
    ∀ q : Question,
      ((mkDetail s q).is_correct = true ↔
        selectedSet s q.id = q.correct_answers.toFinset) ∧
      (getUserAnswerSession s q.id = none → q.correct_answers ≠ [] →
        (mkDetail s q).is_correct = false) := by
  refine ⟨sessionStats_details s, fun q => ⟨?_, ?_⟩⟩
  · simp [mkDetail, isCorrectFor]
  · intro hnone hne
    simp only [mkDetail, isCorrectFor, selectedSet, hnone, List.toFinset_nil]
    rw [decide_eq_false_iff_not]
    intro hc
    exact hne ((List.toFinset_eq_empty_iff _).mp hc.symm)

/-- Witness for C1: in the fixture session, question q1 has no UserAnswer
and one correct answer, and is scored incorrect. -/
theorem score_marks_correct_iff_set_equal_witness :
    (mkDetail exSession (exQuestion "q1" "DataRaptors")).is_correct = false :=
  ((score_marks_correct_iff_set_equal {} "s1" exSession 0).2
    (exQuestion "q1" "DataRaptors")).2 rfl (by simp [exQuestion])

/-- C3 (amended): the stored score percentage is the raw percentage
correct/total × 100 (0 when total is 0) rounded to one decimal, but the
passed flag compares the UNROUNDED raw percentage against the configured
passing threshold, not the rounded stored percentage. -/
theorem score_percentage_rounding_passed_raw (config : ExamConfig) (sid : String)
    (s : ExamSession) (now : ℚ) :
    (scoreSession config sid s now).score_percentage = round1 (rawScorePercentage s) ∧
    ((scoreSession config sid s now).passed = true ↔
      rawScorePercentage s ≥ config.passing_score_percentage) ∧
    rawScorePercentage s
      = (if (scoreSession config sid s now).total_questions > 0
        then ((scoreSession config sid s now).correct_answers : ℚ)
          / ((scoreSession config sid s now).total_questions : ℚ) * 100
        else 0) := by
  refine ⟨rfl, ?_, rfl⟩
  exact decide_eq_true_iff

/-- Counterexample for C3 as stated: in exThirdsSession with passing
threshold 66.7, the stored (rounded) score percentage is 66.7 ≥ 66.7,
yet passed is false, because the code compares the unrounded 66.66...%. -/
theorem score_passed_not_rounded_counterexample :
    (scoreSession exPassConfig "thirds" exThirdsSession 0).passed = false ∧
    (scoreSession exPassConfig "thirds" exThirdsSession 0).score_percentage
      ≥ exPassConfig.passing_score_percentage := by
  constructor
  · norm_num +decide [scoreSession, rawScorePercentage, sessionStats, scoreStep,
      isCorrectFor, selectedSet, bumpStat, getUserAnswerSession, exThirdsSession,
      exQuestion, exPassConfig, List.find?]
  · norm_num +decide [scoreSession, rawScorePercentage, sessionStats, scoreStep,
      isCorrectFor, selectedSet, bumpStat, getUserAnswerSession, exThirdsSession,
      exQuestion, exPassConfig, round1, round_eq, List.find?]

/-- C4: for an existing session, submitting answer A for question qid and
then answer B for qid leaves exactly one UserAnswer for qid, recording B's
selected ids and bookmark flag; and resubmitting the same answer twice
yields the same final state as submitting it once. -/
theorem submit_answer_replaces (st : EngineState) (sid qid : String)
    (A B : List String) (bmA bmB : Bool) (s : ExamSession)
    (h : lookupSession st sid = some s) :
    (∃ s2, lookupSession ((submit_answer
          ((submit_answer st sid qid A bmA).1) sid qid B bmB).1) sid = some s2 ∧
        s2.user_answers.filter (fun a => a.question_id == qid)
          = [{ question_id := qid, selected_answers := B,
               time_spent_seconds := none, bookmarked := bmB }]) ∧
    (submit_answer ((submit_answer st sid qid B bmB).1) sid qid B bmB).1
      = (submit_answer st sid qid B bmB).1 := by
  have found : ∀ (st2 : EngineState) (sel : List String) (bm : Bool)
      (s2 : ExamSession), lookupSession st2 sid = some s2 →
      (submit_answer st2 sid qid sel bm).1
        = updateSession st2 sid (fun s => submitAnswerSession s qid sel bm) := by
    intro st2 sel bm s2 h2
    simp [submit_answer, h2]
  have h1 : lookupSession (submit_answer st sid qid A bmA).1 sid
      = some (submitAnswerSession s qid A bmA) := by
    rw [found st A bmA s h, lookupSession_updateSession, h]
    rfl
  constructor
  · refine ⟨submitAnswerSession (submitAnswerSession s qid A bmA) qid B bmB, ?_, ?_⟩
    · rw [found _ B bmB _ h1, lookupSession_updateSession, h1]
      rfl
    · exact submitAnswerSession_filter _ qid B bmB
  · have h2 : lookupSession (submit_answer st sid qid B bmB).1 sid
        = some (submitAnswerSession s qid B bmB) := by
      rw [found st B bmB s h, lookupSession_updateSession, h]
      rfl
    have hfun : (fun s' => submitAnswerSession (submitAnswerSession s' qid B bmB)
        qid B bmB) = (fun s' => submitAnswerSession s' qid B bmB) :=
      funext (fun s' => submitAnswerSession_idem s' qid B bmB)
    rw [found _ B bmB _ h2, found st B bmB s h, updateSession_updateSession, hfun]

/-- Witness for C4 at the fixture state: submit ["A"] then ["B"] for q1. -/
theorem submit_answer_replaces_witness :
    (∃ s2, lookupSession ((submit_answer
          ((submit_answer exState "s1" "q1" ["A"] false).1) "s1" "q1" ["B"] true).1)
          "s1" = some s2 ∧
        s2.user_answers.filter (fun a => a.question_id == "q1")
          = [{ question_id := "q1", selected_answers := ["B"],
               time_spent_seconds := none, bookmarked := true }]) ∧
    (submit_answer ((submit_answer exState "s1" "q1" ["B"] true).1)
        "s1" "q1" ["B"] true).1
      = (submit_answer exState "s1" "q1" ["B"] true).1 :=
  submit_answer_replaces exState "s1" "q1" ["A"] ["B"] false true exSession rfl

/-- C6: navigate_to_question succeeds exactly when the session exists and
the index is within [0, len(questions)); success sets the current index to
that value, failure leaves the whole state unchanged, so a successful
navigate always leaves the index in range. -/
theorem navigate_to_question_spec (st : EngineState) (sid : String) (index : Int) :
    ((navigate_to_question st sid index).2 = true ↔
      ∃ s, lookupSession st sid = some s ∧ 0 ≤ index ∧
        index < (s.questions.length : Int)) ∧
    ((navigate_to_question st sid index).2 = false →
      (navigate_to_question st sid index).1 = st) ∧
    (∀ s, lookupSession st sid = some s →
      (navigate_to_question st sid index).2 = true →
      ∃ s', lookupSession (navigate_to_question st sid index).1 sid = some s' ∧
        s' = { s with current_question_index := index } ∧
        0 ≤ s'.current_question_index ∧
        s'.current_question_index < (s'.questions.length : Int)) := by
  refine ⟨?_, ?_, ?_⟩
  · cases hl : lookupSession st sid with
    | none =>
        simp only [navigate_to_question, hl]
        refine iff_of_false (by simp) ?_
        rintro ⟨s, hs, -⟩
        cases hs
    | some s =>
        by_cases hidx : 0 ≤ index ∧ index < (s.questions.length : Int)
        · simp only [navigate_to_question, hl, if_pos hidx]
          exact iff_of_true (by trivial) ⟨s, rfl, hidx⟩
        · simp only [navigate_to_question, hl, if_neg hidx]
          refine iff_of_false (by simp) ?_
          rintro ⟨s0, hs0, hb⟩
          cases hs0
          exact hidx hb
  · cases hl : lookupSession st sid with
    | none =>
        intro _
        simp [navigate_to_question, hl]
    | some s =>
        by_cases hidx : 0 ≤ index ∧ index < (s.questions.length : Int)
        · simp only [navigate_to_question, hl, if_pos hidx]
          intro hc
          simp at hc
        · intro _
          simp [navigate_to_question, hl, if_neg hidx]
  · intro s0 hs0 hsucc
    simp only [navigate_to_question, hs0] at hsucc ⊢
    by_cases hidx : 0 ≤ index ∧ index < (s0.questions.length : Int)
    · simp only [if_pos hidx]
      refine ⟨{ s0 with current_question_index := index }, ?_, rfl, hidx.1, hidx.2⟩
      rw [lookupSession_updateSession, hs0]
      rfl
    · simp [if_neg hidx] at hsucc

/-- Witness for C6: navigating the fixture session to index 0 succeeds and
leaves the index in range. -/
theorem navigate_to_question_spec_witness :
    ∃ s', lookupSession (navigate_to_question exState "s1" 0).1 "s1" = some s' ∧
      s' = { exSession with current_question_index := 0 } ∧
      0 ≤ s'.current_question_index ∧
      s'.current_question_index < (s'.questions.length : Int) :=
  (navigate_to_question_spec exState "s1" 0).2.2 exSession rfl (by decide)

/-- C7: a session created in study mode has no duration limit, and an
untimed session (duration_minutes = None) is never expired and has no
remaining-seconds value, at every query time. -/
theorem study_untimed_never_expires :
    (∀ (config : ExamConfig) (exam : Exam) (available : List Question)
        (topics : Option (List String)) (question_count : Option Int)
        (sid : String) (now : ℚ)
        (sample : List Question → Nat → List Question)
        (shuffle : Question → List Answer) (s : ExamSession),
      create_exam_session config exam available "study" topics question_count
          sid now sample shuffle = Except.ok s →
      s.duration_minutes = none) ∧
    (∀ (st : EngineState) (sid : String) (s : ExamSession) (now : ℚ),
      lookupSession st sid = some s → s.duration_minutes = none →
      is_session_expired st sid now = false ∧
      get_remaining_time st sid now = none) := by
  constructor
  · intro config exam available topics question_count sid now sample shuffle s h
    simp only [create_exam_session] at h
    split at h
    · cases h
    · split at h
      · cases h
      · cases h
        rfl
  · intro st sid s now hl hd
    constructor
    · simp [is_session_expired, hl, hd, pyTruthyOptInt]
    · simp [get_remaining_time, hl, hd, pyTruthyOptInt]

/-- Witness for C7: a study-mode creation from the fixture pool yields a
session with no duration, and the fixture untimed session is not expired
and has no remaining seconds at a late query time. -/
theorem study_untimed_never_expires_witness :
    ((create_exam_session exNoRandomConfig exExam exPool "study" none none
        "sid" 0 (fun l n => l.take n) (fun q => q.answers)).toOption.map
          (fun s => s.duration_minutes) = some none) ∧
    is_session_expired exState "study" 1000000 = false ∧
    get_remaining_time exState "study" 1000000 = none := by
  refine ⟨?_, study_untimed_never_expires.2 exState "study" exStudySession
    1000000 rfl rfl⟩
  norm_num +decide [create_exam_session, filteredPool, pyTarget, pySlice,
    exNoRandomConfig, exExam, exPool, exQuestion]

/-- C8: submit_answer returns false exactly when the session id does not
exist; when the session exists it returns true and stores the
caller-supplied question id and selected option ids verbatim (no check
that the question id is in the session's question list, nor that the
selected ids are option ids of that question). -/
theorem submit_answer_error_spec (st : EngineState) (sid qid : String)
    (sel : List String) (bm : Bool) :
    ((submit_answer st sid qid sel bm).2 = false ↔ lookupSession st sid = none) ∧
    (∀ s, lookupSession st sid = some s →
      (submit_answer st sid qid sel bm).2 = true ∧
      lookupSession (submit_answer st sid qid sel bm).1 sid
        = some (submitAnswerSession s qid sel bm) ∧
      getUserAnswerSession (submitAnswerSession s qid sel bm) qid
        = some { question_id := qid, selected_answers := sel,
                 time_spent_seconds := none, bookmarked := bm }) := by
  cases hl : lookupSession st sid with
  | none =>
      refine ⟨by simp [submit_answer, hl], ?_⟩
      intro s hs
      cases hs
  | some s0 =>
      refine ⟨by simp [submit_answer, hl], ?_⟩
      intro s hs
      cases hs
      refine ⟨by simp [submit_answer, hl], ?_, getUserAnswerSession_submit s0 qid sel bm⟩
      simp only [submit_answer, hl]
      rw [lookupSession_updateSession, hl]
      rfl

/-- Witness for C8: submitting an id that is not even a question of the
fixture session, with an id that is not an option, still succeeds and is
stored verbatim. -/
theorem submit_answer_error_spec_witness :
    (submit_answer exState "s1" "not-a-question" ["Z"] false).2 = true ∧
    lookupSession (submit_answer exState "s1" "not-a-question" ["Z"] false).1 "s1"
      = some (submitAnswerSession exSession "not-a-question" ["Z"] false) ∧
    getUserAnswerSession (submitAnswerSession exSession "not-a-question" ["Z"] false)
        "not-a-question"
      = some { question_id := "not-a-question", selected_answers := ["Z"],
               time_spent_seconds := none, bookmarked := false } :=
  (submit_answer_error_spec exState "s1" "not-a-question" ["Z"] false).2
    exSession rfl

/-- C9: calculate_score does not mutate the engine state: the state
component of its result is the input state, so the scored session (all its
fields) is unchanged by scoring. -/
theorem calculate_score_pure (st : EngineState) (sid : String) (now : ℚ)
    (s : ExamSession) (h : lookupSession st sid = some s) :
    (calculate_score st sid now).1 = st ∧
    lookupSession (calculate_score st sid now).1 sid = some s := by
  simp [calculate_score, h]

/-- Witness for C9 at the fixture state. -/
theorem calculate_score_pure_witness :
    (calculate_score exState "s1" 60).1 = exState ∧
    lookupSession (calculate_score exState "s1" 60).1 "s1" = some exSession :=
  calculate_score_pure exState "s1" 60 exSession rfl

/-- C10: a session whose duration_minutes is the integer 0 is treated like
an untimed one: is_session_expired is false and get_remaining_time is None
at every query time. -/
theorem zero_duration_behaves_untimed (st : EngineState) (sid : String)
    (s : ExamSession) (now : ℚ) (h : lookupSession st sid = some s)
    (hd : s.duration_minutes = some 0) :
    is_session_expired st sid now = false ∧ get_remaining_time st sid now = none := by
  constructor
  · simp [is_session_expired, h, hd, pyTruthyOptInt]
  · simp [get_remaining_time, h, hd, pyTruthyOptInt]

/-- Witness for C10 at the fixture zero-duration session, queried late. -/
theorem zero_duration_behaves_untimed_witness :
    is_session_expired exState "zero" 1000000 = false ∧
    get_remaining_time exState "zero" 1000000 = none :=
  zero_duration_behaves_untimed exState "zero" exZeroSession 1000000 rfl rfl

/-- C2 (amended): topic_performance is sorted ascending by percentage with
ties kept stable in topic-encounter order (it is a stable sort of the
encounter-ordered per-topic list), but weak_areas is the weak topic names
in ENCOUNTER order (it is built before the sort), not in the ascending
order of topic_performance. -/
theorem score_topic_order (config : ExamConfig) (sid : String) (s : ExamSession)
    (now : ℚ) :
    List.Pairwise (fun a b : TopicPerformance => a.percentage ≤ b.percentage)
      (scoreSession config sid s now).topic_performance ∧
    (scoreSession config sid s now).topic_performance.Perm (unsortedPerf config s) ∧
    (∀ a b : TopicPerformance, [a, b].Sublist (unsortedPerf config s) →
      a.percentage ≤ b.percentage →
      [a, b].Sublist (scoreSession config sid s now).topic_performance) ∧
    (scoreSession config sid s now).weak_areas
      = ((unsortedPerf config s).filter (fun t => t.is_weak_area)).map
          (fun t => t.topic) ∧
    (unsortedPerf config s).map (fun t => t.topic) = encounterTopics s.questions := by
  refine ⟨?_, ?_, ?_, scoreSession_weak_areas config sid s now,
    unsortedPerf_topics config s⟩
  · rw [scoreSession_topic_performance]
    have h := List.sorted_mergeSort perfLE_trans perfLE_total (unsortedPerf config s)
    exact h.imp (fun hab => of_decide_eq_true hab)
  · rw [scoreSession_topic_performance]
    exact List.mergeSort_perm _ _
  · intro a b hsub hle
    rw [scoreSession_topic_performance]
    exact List.pair_sublist_mergeSort perfLE_trans perfLE_total
      (by simp [perfLE, hle]) hsub

/-- Counterexample for C2 as stated: in exMixSession, weak_areas is
[TopicA, TopicB] (encounter order) while the weak names of the sorted
topic_performance read [TopicB, TopicA] (ascending percentage 0, 50). -/
theorem weak_areas_not_sorted_counterexample :
    (scoreSession {} "mix" exMixSession 0).weak_areas ≠
      (((scoreSession {} "mix" exMixSession 0).topic_performance.filter
        (fun t => t.is_weak_area)).map (fun t => t.topic)) := by
  norm_num +decide [scoreSession, rawScorePercentage, sessionStats, scoreStep,
    isCorrectFor, selectedSet, mkDetail, bumpStat, getUserAnswerSession,
    unsortedPerf, mkPerf, perfLE, round1, round_eq, exMixSession, exQuestion,
    List.find?, List.mergeSort, List.merge]

/-- Witness for C2 (amended), exercising the stability clause: the two
100-percent entries of exTieSession stay in encounter order in the sorted
topic_performance. -/
theorem score_topic_order_witness :
    [exPerfA, exPerfB].Sublist
      (scoreSession {} "tie" exTieSession 0).topic_performance := by
  have hu : unsortedPerf {} exTieSession = [exPerfA, exPerfB] := by
    norm_num +decide [unsortedPerf, sessionStats, scoreStep, isCorrectFor,
      selectedSet, mkDetail, bumpStat, getUserAnswerSession, mkPerf, round1,
      round_eq, exTieSession, exQuestion, exPerfA, exPerfB, List.find?]
  exact (score_topic_order {} "tie" exTieSession 0).2.2.1 exPerfA exPerfB
    (by rw [hu]) le_rfl

theorem shuffled_facts (config : ExamConfig) (shuffle : Question → List Answer)
    (hshuffle : ∀ q : Question, (shuffle q).Perm q.answers)
    (sel0 : List Question) :
    (if config.randomize_answers = true then
        sel0.map (fun q => { q with answers := shuffle q }) else sel0).length
      = sel0.length ∧
    (∀ q ∈ (if config.randomize_answers = true then
        sel0.map (fun q => { q with answers := shuffle q }) else sel0),
      ∃ q1 ∈ sel0, q.id = q1.id ∧ q.topic = q1.topic ∧
        q.question_text = q1.question_text ∧
        q.correct_answers = q1.correct_answers ∧ q.answers.Perm q1.answers) ∧
    (if config.randomize_answers = true then
        sel0.map (fun q => { q with answers := shuffle q }) else sel0).map
          (fun q => q.id)
      = sel0.map (fun q => q.id) := by
  by_cases hra : config.randomize_answers = true
  · rw [if_pos hra]
    refine ⟨List.length_map _ _, ?_, ?_⟩
    · intro q hq
      obtain ⟨q1, hq1, rfl⟩ := List.mem_map.mp hq
      exact ⟨q1, hq1, rfl, rfl, rfl, rfl, hshuffle q1⟩
    · rw [List.map_map]
      rfl
  · rw [if_neg hra]
    refine ⟨rfl, ?_, rfl⟩
    intro q hq
    exact ⟨q, hq, rfl, rfl, rfl, rfl, List.Perm.refl _⟩

/-- C5 (amended): on a successful createSession, the session has exactly
min(target, P) questions, where P is the topic-filtered pool size and the
target is the caller-supplied questionCount when it is provided AND nonzero
(a provided questionCount of 0 is falsy in Python and falls back to the
exam's configured total_questions); each selected question is one of the
pool's (up to the configured answer-order shuffle), and when sampling
without replacement is used, no pool question is selected twice. -/
theorem create_session_selection (config : ExamConfig) (exam : Exam)
    (available : List Question) (mode : String) (topics : Option (List String))
    (question_count : Option Int) (sid : String) (now : ℚ)
    (sample : List Question → Nat → List Question)
    (shuffle : Question → List Answer)
    (havail : available ≠ [])
    (hsample : ∀ (l : List Question) (n : Nat), n ≤ l.length →
      (sample l n).length = n ∧ (sample l n).Subperm l)
    (hshuffle : ∀ q : Question, (shuffle q).Perm q.answers)
    (htarget : 0 ≤ pyTarget exam question_count) :
    (∃ s, create_exam_session config exam available mode topics question_count
        sid now sample shuffle = Except.ok s) ∧
    (∀ s, create_exam_session config exam available mode topics question_count
        sid now sample shuffle = Except.ok s →
      ((s.questions.length : Int)
          = min (pyTarget exam question_count)
              ((filteredPool available topics).length : Int)) ∧
      (∀ q ∈ s.questions, ∃ q0 ∈ filteredPool available topics,
        q.id = q0.id ∧ q.topic = q0.topic ∧ q.question_text = q0.question_text ∧
        q.correct_answers = q0.correct_answers ∧ q.answers.Perm q0.answers) ∧
      (config.randomize_questions = true →
        ((filteredPool available topics).map (fun q => q.id)).Nodup →
        (s.questions.map (fun q => q.id)).Nodup)) := by
  have h1 : ¬(available.isEmpty = true) := by
    simp [List.isEmpty_iff, havail]
  have hnum0 : (0 : Int) ≤ min (pyTarget exam question_count)
      ((filteredPool available topics).length : Int) :=
    le_min htarget (Int.ofNat_nonneg _)
  have h2 : ¬(config.randomize_questions = true ∧
      min (pyTarget exam question_count)
        ((filteredPool available topics).length : Int) < 0) := by
    rintro ⟨-, hlt⟩
    exact absurd hnum0 (not_le.mpr hlt)
  have hnumNat : (min (pyTarget exam question_count)
      ((filteredPool available topics).length : Int)).toNat
        ≤ (filteredPool available topics).length := by
    have := min_le_right (pyTarget exam question_count)
      ((filteredPool available topics).length : Int)
    omega
  have hok : create_exam_session config exam available mode topics question_count
      sid now sample shuffle
      = Except.ok
        { session_id := sid, mode := mode,
          questions :=
            (if config.randomize_answers = true then
              (if config.randomize_questions = true then
                  sample (filteredPool available topics)
                    (min (pyTarget exam question_count)
                      ((filteredPool available topics).length : Int)).toNat
                else pySlice (filteredPool available topics)
                  (min (pyTarget exam question_count)
                    ((filteredPool available topics).length : Int))).map
                (fun q => { q with answers := shuffle q })
            else
              (if config.randomize_questions = true then
                  sample (filteredPool available topics)
                    (min (pyTarget exam question_count)
                      ((filteredPool available topics).length : Int)).toNat
                else pySlice (filteredPool available topics)
                  (min (pyTarget exam question_count)
                    ((filteredPool available topics).length : Int)))),
          start_time := now,
          duration_minutes :=
            if mode == "exam" then some exam.duration_minutes else none,
          current_question_index := 0, user_answers := [] } := by
    simp only [create_exam_session]
    rw [if_neg h1, if_neg h2]
  refine ⟨⟨_, hok⟩, ?_⟩
  intro s h
  rw [hok] at h
  cases h
  by_cases hrq : config.randomize_questions = true
  · obtain ⟨hlen, hsub⟩ := hsample (filteredPool available topics) _ hnumNat
    obtain ⟨hl, hm, hi⟩ := shuffled_facts config shuffle hshuffle
      (sample (filteredPool available topics)
        (min (pyTarget exam question_count)
          ((filteredPool available topics).length : Int)).toNat)
    simp only [if_pos hrq]
    refine ⟨?_, ?_, ?_⟩
    · rw [hl, hlen]
      exact Int.toNat_of_nonneg hnum0
    · intro q hq
      obtain ⟨q1, hq1, hfields⟩ := hm q hq
      exact ⟨q1, hsub.subset hq1, hfields⟩
    · intro _ hnodup
      rw [hi]
      exact subperm_nodup (subperm_map _ hsub) hnodup
  · have hslice : pySlice (filteredPool available topics)
        (min (pyTarget exam question_count)
          ((filteredPool available topics).length : Int))
        = (filteredPool available topics).take
            (min (pyTarget exam question_count)
              ((filteredPool available topics).length : Int)).toNat := by
      simp only [pySlice, if_pos hnum0]
    obtain ⟨hl, hm, hi⟩ := shuffled_facts config shuffle hshuffle
      (pySlice (filteredPool available topics)
        (min (pyTarget exam question_count)
          ((filteredPool available topics).length : Int)))
    simp only [if_neg hrq]
    refine ⟨?_, ?_, ?_⟩
    · rw [hl, hslice, List.length_take, Nat.min_eq_left hnumNat]
      exact Int.toNat_of_nonneg hnum0
    · intro q hq
      obtain ⟨q1, hq1, hfields⟩ := hm q hq
      rw [hslice] at hq1
      exact ⟨q1, List.take_subset _ _ hq1, hfields⟩
    · intro hrq' _
      exact absurd hrq' hrq

/-- Counterexample for C5 as stated: with randomization off, a pool of 3
questions, an exam configured for 2 questions and a caller-supplied
questionCount of 0, the created session has 2 questions, not
min(0, 3) = 0: a provided 0 is treated as absent. -/
theorem create_session_count_counterexample :
    (create_exam_session exNoRandomConfig exExam exPool "exam" none (some 0) "sid" 0
        (fun l n => l.take n) (fun q => q.answers)).toOption.map
          (fun s => s.questions.length) = some 2 ∧
    ¬((2 : Int) = min (0 : Int) (exPool.length : Int)) := by
  constructor
  · norm_num +decide [create_exam_session, filteredPool, pyTarget, pySlice,
      exNoRandomConfig, exExam, exPool, exQuestion]
  · decide

/-- Witness for C5 (amended): a deterministic take-based sampler meets the
sampling contract, and the creation with questionCount 1 from the fixture
pool succeeds. -/
theorem create_session_selection_witness :
    ∃ s, create_exam_session exNoRandomConfig exExam exPool "exam" none (some 1)
        "sid" 0 (fun l n => l.take n) (fun q => q.answers) = Except.ok s :=
  (create_session_selection exNoRandomConfig exExam exPool "exam" none (some 1)
    "sid" 0 (fun l n => l.take n) (fun q => q.answers)
    (by simp [exPool])
    (fun l n hn => ⟨by rw [List.length_take]; exact Nat.min_eq_left hn,
      (List.take_sublist n l).subperm⟩)
    (fun q => List.Perm.refl _)
    (by decide)).1
